import Mathlib

/-!
Shallow embedding of `src/ref-exchange/src/pool.rs`: the `Pool` dispatch layer
over the three AMM invariant strategies (`SimplePool`, `StableSwapPool`,
`RatedSwapPool`).

Modelling conventions:
* `AccountId` is `String`, `Balance` is `Nat` (the dispatcher performs no
  arithmetic on balances, so `u128` wrap-around never arises in this layer).
* Rust `Vec<T>` is `List T`; the raw cross-call response `Vec<u8>` is `List Nat`.
* The three invariant strategies are external collaborators (their sources are
  not part of the dispatch layer); each is embedded as a record holding an
  opaque state of an arbitrary type `σ` together with one function per method
  the dispatcher invokes.  A method taking `&mut self` in Rust is a function
  `σ → … → σ × result`; a method taking `&self` is a function `σ → … → result`.
* A dispatcher arm that is `unimplemented!()` in the source (a fatal contract
  violation) is embedded as `none`; a delegating arm produces `some` of the
  strategy call.  Dispatcher methods whose `match` has no `unimplemented!()`
  arm are embedded as total functions, exactly as in the source.
* Dispatcher methods taking `&self` in Rust but for which the specification
  makes a read-only (frame) assertion are given an explicit state-passing type
  returning the (necessarily unchanged) pool, so the frame property is a
  provable equation rather than a typing convention.
-/

abbrev AccountId : Type := String

abbrev Balance : Type := Nat

/-- Modelled from the spec: per-token cumulative swap volume accumulator
(`SwapVolume` lives in `utils.rs`, which is not under `src/`); the dispatcher
only returns values of this type. -/
structure SwapVolume where
  input : Nat
  output : Nat
deriving Repr, DecidableEq

/-- Modelled from the spec: immutable value object carrying the admin fee
rate(s) and the beneficiary split (`admin_fee.rs` is not under `src/`); the
dispatcher only passes values of this type through to the strategies. -/
structure AdminFees where
  fee_rate : Nat
  beneficiary_split : List (AccountId × Nat)
deriving Repr, DecidableEq

/-- NEAR's `PromiseOrValue<T>`: either a pending asynchronous promise handle
or an immediate value. -/
inductive PromiseOrValue (α : Type) where
  | Promise : PromiseOrValue α
  | Value : α → PromiseOrValue α
deriving Repr, DecidableEq

/-- Modelled from the spec: the rate oracle of a rated pool
(`rated_swap/rates.rs` is not under `src/`).  `stored` is the committed rate
mapping (token → scaled exchange rate); `parse` is the defensive
deserializer of a raw cross-call response (`none` models a malformed or
error response); `update` is the opaque result of issuing an asynchronous
rate-refresh request from `&self` (which cannot mutate the oracle). -/
structure Rates where
  stored : List (AccountId × Balance)
  parse : List Nat → Option (List (AccountId × Balance))
  update : PromiseOrValue Bool

/-- Modelled from the spec: the refresh-completion callback.  The raw response
is deserialized defensively; only a well-formed successful response atomically
replaces the committed rate mapping and yields `true`; otherwise the committed
rates are left untouched and the callback yields `false`. -/
def Rates.update_callback (self : Rates) (cross_call_result : List Nat) :
    Rates × Bool :=
  match self.parse cross_call_result with
  | some new_rates => ({ self with stored := new_rates }, true)
  | none => (self, false)

/-- Constant-product strategy (`simple_pool.rs`, external collaborator):
opaque state `σ` plus one function per method the dispatcher calls.
`add_liquidity` additionally returns the amounts actually kept by the pool,
which the Rust method writes back through its `&mut Vec<Balance>` argument
(per the dispatcher's doc comment "Updates amounts to amount kept in the
pool"). -/
structure SimplePool (σ : Type) where
  state : σ
  tokens : σ → List AccountId
  add_liquidity : σ → AccountId → List Balance → σ × List Balance × Balance
  remove_liquidity : σ → AccountId → Balance → List Balance → σ × List Balance
  get_return : σ → AccountId → Balance → AccountId → Balance
  get_fee : σ → Nat
  get_volumes : σ → List SwapVolume
  swap : σ → AccountId → Balance → AccountId → Balance → AdminFees → σ × Balance
  share_total_balance : σ → Balance
  share_balance_of : σ → AccountId → Balance
  share_transfer : σ → AccountId → AccountId → Balance → σ
  share_register : σ → AccountId → σ

/-- Stableswap strategy (`stable_swap.rs`, external collaborator): opaque
state `σ` plus one function per method the dispatcher calls. -/
structure StableSwapPool (σ : Type) where
  state : σ
  tokens : σ → List AccountId
  add_liquidity : σ → AccountId → List Balance → Balance → AdminFees → σ × Balance
  remove_liquidity_by_shares : σ → AccountId → Balance → List Balance → σ × List Balance
  remove_liquidity_by_tokens : σ → AccountId → List Balance → Balance → AdminFees → σ × Balance
  get_return : σ → AccountId → Balance → AccountId → AdminFees → Balance
  get_fee : σ → Nat
  get_volumes : σ → List SwapVolume
  get_share_price : σ → Balance
  swap : σ → AccountId → Balance → AccountId → Balance → AdminFees → σ × Balance
  share_total_balance : σ → Balance
  share_balance_of : σ → AccountId → Balance
  share_transfer : σ → AccountId → AccountId → Balance → σ
  share_register : σ → AccountId → σ
  predict_add_stable_liquidity : σ → List Balance → AdminFees → Balance
  predict_remove_liquidity : σ → Balance → List Balance
  predict_remove_liquidity_by_tokens : σ → List Balance → AdminFees → Balance

/-- Rate-adjusted stableswap strategy (`rated_swap.rs`, external
collaborator): opaque state `σ`, the `rates` oracle field that the dispatcher
dereferences directly (`pool.rates` in the source), and one function per
method the dispatcher calls.  Since a `&self` receiver includes the `rates`
field, every rate-sensitive method also receives the current `Rates`; per the
spec (§4.5) the refresh-completion callback is the only writer of the
committed rate mapping, so no strategy method returns a new `Rates`. -/
structure RatedSwapPool (σ : Type) where
  state : σ
  rates : Rates
  tokens : σ → List AccountId
  add_liquidity : σ → Rates → AccountId → List Balance → Balance → AdminFees → σ × Balance
  remove_liquidity_by_shares : σ → Rates → AccountId → Balance → List Balance → σ × List Balance
  remove_liquidity_by_tokens : σ → Rates → AccountId → List Balance → Balance → AdminFees → σ × Balance
  get_return : σ → Rates → AccountId → Balance → AccountId → AdminFees → Balance
  get_fee : σ → Nat
  get_volumes : σ → List SwapVolume
  get_share_price : σ → Rates → Balance
  swap : σ → Rates → AccountId → Balance → AccountId → Balance → AdminFees → σ × Balance
  share_total_balance : σ → Balance
  share_balance_of : σ → AccountId → Balance
  share_transfer : σ → AccountId → AccountId → Balance → σ
  share_register : σ → AccountId → σ
  predict_remove_liquidity : σ → Rates → Balance → List Balance
  predict_remove_liquidity_by_tokens : σ → Rates → List Balance → AdminFees → Balance
  predict_add_rated_liquidity : σ → Rates → List Balance → Option (List Balance) → AdminFees → Balance
  predict_remove_rated_liquidity_by_tokens : σ → Rates → List Balance → Option (List Balance) → AdminFees → Balance
  get_rated_return : σ → Rates → AccountId → Balance → AccountId → Option (List Balance) → AdminFees → Balance

/-- Generic Pool, providing wrapper around different implementations of swap
pools (the tagged union of `pool.rs`), parametric in the three strategies'
opaque state types. -/
inductive Pool (σ₁ σ₂ σ₃ : Type) where
  | SimplePool : SimplePool σ₁ → Pool σ₁ σ₂ σ₃
  | StableSwapPool : StableSwapPool σ₂ → Pool σ₁ σ₂ σ₃
  | RatedSwapPool : RatedSwapPool σ₃ → Pool σ₁ σ₂ σ₃

variable {σ₁ σ₂ σ₃ : Type}

/-- Returns pool kind. -/
def Pool.kind : Pool σ₁ σ₂ σ₃ → String
  | Pool.SimplePool _ => "SIMPLE_POOL"
  | Pool.StableSwapPool _ => "STABLE_SWAP"
  | Pool.RatedSwapPool _ => "RATED_SWAP"

/-- Returns which tokens are in the underlying pool. -/
def Pool.tokens : Pool σ₁ σ₂ σ₃ → List AccountId
  | Pool.SimplePool pool => pool.tokens pool.state
  | Pool.StableSwapPool pool => pool.tokens pool.state
  | Pool.RatedSwapPool pool => pool.tokens pool.state

/-- Adds liquidity into the underlying pool; updates `amounts` to the amounts
kept in the pool (the second component of the result is the caller's vector
after the call).  `unimplemented!()` arms are `none`. -/
def Pool.add_liquidity :
    Pool σ₁ σ₂ σ₃ → AccountId → List Balance →
      Option (Pool σ₁ σ₂ σ₃ × List Balance × Balance)
  | Pool.SimplePool pool, sender_id, amounts =>
      some (Pool.SimplePool
              { pool with state := (pool.add_liquidity pool.state sender_id amounts).1 },
            (pool.add_liquidity pool.state sender_id amounts).2.1,
            (pool.add_liquidity pool.state sender_id amounts).2.2)
  | Pool.StableSwapPool _, _, _ => none
  | Pool.RatedSwapPool _, _, _ => none

/-- Adds liquidity with arbitrary amounts, minimum-shares guard and admin fee. -/
def Pool.add_stable_liquidity :
    Pool σ₁ σ₂ σ₃ → AccountId → List Balance → Balance → AdminFees →
      Option (Pool σ₁ σ₂ σ₃ × Balance)
  | Pool.SimplePool _, _, _, _, _ => none
  | Pool.StableSwapPool pool, sender_id, amounts, min_shares, admin_fee =>
      some (Pool.StableSwapPool
              { pool with state := (pool.add_liquidity pool.state sender_id amounts min_shares admin_fee).1 },
            (pool.add_liquidity pool.state sender_id amounts min_shares admin_fee).2)
  | Pool.RatedSwapPool pool, sender_id, amounts, min_shares, admin_fee =>
      some (Pool.RatedSwapPool
              { pool with state := (pool.add_liquidity pool.state pool.rates sender_id amounts min_shares admin_fee).1 },
            (pool.add_liquidity pool.state pool.rates sender_id amounts min_shares admin_fee).2)

/-- Removes liquidity by shares from the underlying pool. -/
def Pool.remove_liquidity :
    Pool σ₁ σ₂ σ₃ → AccountId → Balance → List Balance →
      Pool σ₁ σ₂ σ₃ × List Balance
  | Pool.SimplePool pool, sender_id, shares, min_amounts =>
      (Pool.SimplePool
         { pool with state := (pool.remove_liquidity pool.state sender_id shares min_amounts).1 },
       (pool.remove_liquidity pool.state sender_id shares min_amounts).2)
  | Pool.StableSwapPool pool, sender_id, shares, min_amounts =>
      (Pool.StableSwapPool
         { pool with state := (pool.remove_liquidity_by_shares pool.state sender_id shares min_amounts).1 },
       (pool.remove_liquidity_by_shares pool.state sender_id shares min_amounts).2)
  | Pool.RatedSwapPool pool, sender_id, shares, min_amounts =>
      (Pool.RatedSwapPool
         { pool with state := (pool.remove_liquidity_by_shares pool.state pool.rates sender_id shares min_amounts).1 },
       (pool.remove_liquidity_by_shares pool.state pool.rates sender_id shares min_amounts).2)

/-- Removes liquidity by exact output amounts with a maximum-shares-burned
guard. -/
def Pool.remove_liquidity_by_tokens :
    Pool σ₁ σ₂ σ₃ → AccountId → List Balance → Balance → AdminFees →
      Option (Pool σ₁ σ₂ σ₃ × Balance)
  | Pool.SimplePool _, _, _, _, _ => none
  | Pool.StableSwapPool pool, sender_id, amounts, max_burn_shares, admin_fee =>
      some (Pool.StableSwapPool
              { pool with state := (pool.remove_liquidity_by_tokens pool.state sender_id amounts max_burn_shares admin_fee).1 },
            (pool.remove_liquidity_by_tokens pool.state sender_id amounts max_burn_shares admin_fee).2)
  | Pool.RatedSwapPool pool, sender_id, amounts, max_burn_shares, admin_fee =>
      some (Pool.RatedSwapPool
              { pool with state := (pool.remove_liquidity_by_tokens pool.state pool.rates sender_id amounts max_burn_shares admin_fee).1 },
            (pool.remove_liquidity_by_tokens pool.state pool.rates sender_id amounts max_burn_shares admin_fee).2)

/-- Returns how many tokens one receives swapping `amount_in` of `token_in`
for `token_out`.  Takes `&self` in the source; the returned pool component
records that the borrow is immutable.  The `SimplePool` arm discards the
`fees` argument, as in the source. -/
def Pool.get_return :
    Pool σ₁ σ₂ σ₃ → AccountId → Balance → AccountId → AdminFees →
      Pool σ₁ σ₂ σ₃ × Balance
  | Pool.SimplePool pool, token_in, amount_in, token_out, _ =>
      (Pool.SimplePool pool, pool.get_return pool.state token_in amount_in token_out)
  | Pool.StableSwapPool pool, token_in, amount_in, token_out, fees =>
      (Pool.StableSwapPool pool, pool.get_return pool.state token_in amount_in token_out fees)
  | Pool.RatedSwapPool pool, token_in, amount_in, token_out, fees =>
      (Pool.RatedSwapPool pool, pool.get_return pool.state pool.rates token_in amount_in token_out fees)

/-- Returns the share decimal of the pool kind. -/
def Pool.get_share_decimal : Pool σ₁ σ₂ σ₃ → Nat
  | Pool.SimplePool _ => 24
  | Pool.StableSwapPool _ => 18
  | Pool.RatedSwapPool _ => 24

/-- Returns the given pool's total fee. -/
def Pool.get_fee : Pool σ₁ σ₂ σ₃ → Nat
  | Pool.SimplePool pool => pool.get_fee pool.state
  | Pool.StableSwapPool pool => pool.get_fee pool.state
  | Pool.RatedSwapPool pool => pool.get_fee pool.state

/-- Returns the volumes of the given pool. -/
def Pool.get_volumes : Pool σ₁ σ₂ σ₃ → List SwapVolume
  | Pool.SimplePool pool => pool.get_volumes pool.state
  | Pool.StableSwapPool pool => pool.get_volumes pool.state
  | Pool.RatedSwapPool pool => pool.get_volumes pool.state

/-- Returns the given pool's share price; a contract violation on the
constant-product kind. -/
def Pool.get_share_price : Pool σ₁ σ₂ σ₃ → Option Balance
  | Pool.SimplePool _ => none
  | Pool.StableSwapPool pool => some (pool.get_share_price pool.state)
  | Pool.RatedSwapPool pool => some (pool.get_share_price pool.state pool.rates)

/-- Swaps `amount_in` of `token_in` for `token_out` and returns the received
amount. -/
def Pool.swap :
    Pool σ₁ σ₂ σ₃ → AccountId → Balance → AccountId → Balance → AdminFees →
      Pool σ₁ σ₂ σ₃ × Balance
  | Pool.SimplePool pool, token_in, amount_in, token_out, min_amount_out, admin_fee =>
      (Pool.SimplePool
         { pool with state := (pool.swap pool.state token_in amount_in token_out min_amount_out admin_fee).1 },
       (pool.swap pool.state token_in amount_in token_out min_amount_out admin_fee).2)
  | Pool.StableSwapPool pool, token_in, amount_in, token_out, min_amount_out, admin_fee =>
      (Pool.StableSwapPool
         { pool with state := (pool.swap pool.state token_in amount_in token_out min_amount_out admin_fee).1 },
       (pool.swap pool.state token_in amount_in token_out min_amount_out admin_fee).2)
  | Pool.RatedSwapPool pool, token_in, amount_in, token_out, min_amount_out, admin_fee =>
      (Pool.RatedSwapPool
         { pool with state := (pool.swap pool.state pool.rates token_in amount_in token_out min_amount_out admin_fee).1 },
       (pool.swap pool.state pool.rates token_in amount_in token_out min_amount_out admin_fee).2)

/-- Returns the total number of shares in the pool. -/
def Pool.share_total_balance : Pool σ₁ σ₂ σ₃ → Balance
  | Pool.SimplePool pool => pool.share_total_balance pool.state
  | Pool.StableSwapPool pool => pool.share_total_balance pool.state
  | Pool.RatedSwapPool pool => pool.share_total_balance pool.state

/-- Returns the share balance of the given account. -/
def Pool.share_balances : Pool σ₁ σ₂ σ₃ → AccountId → Balance
  | Pool.SimplePool pool, account_id => pool.share_balance_of pool.state account_id
  | Pool.StableSwapPool pool, account_id => pool.share_balance_of pool.state account_id
  | Pool.RatedSwapPool pool, account_id => pool.share_balance_of pool.state account_id

/-- Transfers shares between accounts. -/
def Pool.share_transfer :
    Pool σ₁ σ₂ σ₃ → AccountId → AccountId → Balance → Pool σ₁ σ₂ σ₃
  | Pool.SimplePool pool, sender_id, receiver_id, amount =>
      Pool.SimplePool { pool with state := pool.share_transfer pool.state sender_id receiver_id amount }
  | Pool.StableSwapPool pool, sender_id, receiver_id, amount =>
      Pool.StableSwapPool { pool with state := pool.share_transfer pool.state sender_id receiver_id amount }
  | Pool.RatedSwapPool pool, sender_id, receiver_id, amount =>
      Pool.RatedSwapPool { pool with state := pool.share_transfer pool.state sender_id receiver_id amount }

/-- Registers an account in the shares ledger. -/
def Pool.share_register : Pool σ₁ σ₂ σ₃ → AccountId → Pool σ₁ σ₂ σ₃
  | Pool.SimplePool pool, account_id =>
      Pool.SimplePool { pool with state := pool.share_register pool.state account_id }
  | Pool.StableSwapPool pool, account_id =>
      Pool.StableSwapPool { pool with state := pool.share_register pool.state account_id }
  | Pool.RatedSwapPool pool, account_id =>
      Pool.RatedSwapPool { pool with state := pool.share_register pool.state account_id }

/-- Predicts the minted shares of a stable add-liquidity; supported only on
the stableswap kind (takes `&self`: the returned pool is unchanged). -/
def Pool.predict_add_stable_liquidity :
    Pool σ₁ σ₂ σ₃ → List Balance → AdminFees → Option (Pool σ₁ σ₂ σ₃ × Balance)
  | Pool.SimplePool _, _, _ => none
  | Pool.StableSwapPool pool, amounts, fees =>
      some (Pool.StableSwapPool pool, pool.predict_add_stable_liquidity pool.state amounts fees)
  | Pool.RatedSwapPool _, _, _ => none

/-- Predicts the amounts returned when removing liquidity by shares (takes
`&self`: the returned pool is unchanged). -/
def Pool.predict_remove_liquidity :
    Pool σ₁ σ₂ σ₃ → Balance → Option (Pool σ₁ σ₂ σ₃ × List Balance)
  | Pool.SimplePool _, _ => none
  | Pool.StableSwapPool pool, shares =>
      some (Pool.StableSwapPool pool, pool.predict_remove_liquidity pool.state shares)
  | Pool.RatedSwapPool pool, shares =>
      some (Pool.RatedSwapPool pool, pool.predict_remove_liquidity pool.state pool.rates shares)

/-- Predicts the shares burned when removing liquidity by exact output
amounts (takes `&self`: the returned pool is unchanged). -/
def Pool.predict_remove_liquidity_by_tokens :
    Pool σ₁ σ₂ σ₃ → List Balance → AdminFees → Option (Pool σ₁ σ₂ σ₃ × Balance)
  | Pool.SimplePool _, _, _ => none
  | Pool.StableSwapPool pool, amounts, fees =>
      some (Pool.StableSwapPool pool, pool.predict_remove_liquidity_by_tokens pool.state amounts fees)
  | Pool.RatedSwapPool pool, amounts, fees =>
      some (Pool.RatedSwapPool pool, pool.predict_remove_liquidity_by_tokens pool.state pool.rates amounts fees)

/-- Predicts the minted shares of a rated add-liquidity under optionally
overridden rates; supported only on the rated kind. -/
def Pool.predict_add_rated_liquidity :
    Pool σ₁ σ₂ σ₃ → List Balance → Option (List Balance) → AdminFees →
      Option (Pool σ₁ σ₂ σ₃ × Balance)
  | Pool.SimplePool _, _, _, _ => none
  | Pool.StableSwapPool _, _, _, _ => none
  | Pool.RatedSwapPool pool, amounts, rates, fees =>
      some (Pool.RatedSwapPool pool, pool.predict_add_rated_liquidity pool.state pool.rates amounts rates fees)

/-- Predicts the shares burned of a rated remove-by-tokens under optionally
overridden rates; supported only on the rated kind. -/
def Pool.predict_remove_rated_liquidity_by_tokens :
    Pool σ₁ σ₂ σ₃ → List Balance → Option (List Balance) → AdminFees →
      Option (Pool σ₁ σ₂ σ₃ × Balance)
  | Pool.SimplePool _, _, _, _ => none
  | Pool.StableSwapPool _, _, _, _ => none
  | Pool.RatedSwapPool pool, amounts, rates, fees =>
      some (Pool.RatedSwapPool pool, pool.predict_remove_rated_liquidity_by_tokens pool.state pool.rates amounts rates fees)

/-- Swap quote under externally supplied or overridden rates; supported only
on the rated kind. -/
def Pool.get_rated_return :
    Pool σ₁ σ₂ σ₃ → AccountId → Balance → AccountId → Option (List Balance) → AdminFees →
      Option (Pool σ₁ σ₂ σ₃ × Balance)
  | Pool.SimplePool _, _, _, _, _, _ => none
  | Pool.StableSwapPool _, _, _, _, _, _ => none
  | Pool.RatedSwapPool pool, token_in, amount_in, token_out, rates, fees =>
      some (Pool.RatedSwapPool pool, pool.get_rated_return pool.state pool.rates token_in amount_in token_out rates fees)

/-- Issues an asynchronous rate-refresh request; supported only on the rated
kind.  Takes `&self`: the returned pool is necessarily unchanged. -/
def Pool.update_rates :
    Pool σ₁ σ₂ σ₃ → Option (Pool σ₁ σ₂ σ₃ × PromiseOrValue Bool)
  | Pool.SimplePool _ => none
  | Pool.StableSwapPool _ => none
  | Pool.RatedSwapPool pool => some (Pool.RatedSwapPool pool, pool.rates.update)

/-- Completion callback of the rate refresh; supported only on the rated
kind, where it delegates to `rates.update_callback` on the pool's oracle. -/
def Pool.update_callback :
    Pool σ₁ σ₂ σ₃ → List Nat → Option (Pool σ₁ σ₂ σ₃ × Bool)
  | Pool.SimplePool _, _ => none
  | Pool.StableSwapPool _, _ => none
  | Pool.RatedSwapPool pool, cross_call_result =>
      some (Pool.RatedSwapPool { pool with rates := (pool.rates.update_callback cross_call_result).1 },
            (pool.rates.update_callback cross_call_result).2)

/-- Evaluates `f` on the pool component of an optional dispatcher result,
falling back to `d` when the operation was a contract violation. -/
def afterPool {γ α : Type} (f : Pool σ₁ σ₂ σ₃ → γ) :
    Option (Pool σ₁ σ₂ σ₃ × α) → γ → γ
  | some (p, _), _ => f p
  | none, d => d

/-- Concrete constant-product strategy instance over a trivial state, used to
exhibit explicit evaluations of the dispatcher.  Its `add_liquidity` keeps
different amounts than the caller passed in (each amount is adjusted by one),
matching the possibility that the pool rewrites the caller's vector. -/
def demoSimple : SimplePool Unit where
  state := ()
  tokens := fun _ => ["token-a", "token-b"]
  add_liquidity := fun s _ amounts => (s, List.map (fun x => x + 1) amounts, 1)
  remove_liquidity := fun s _ _ min_amounts => (s, min_amounts)
  get_return := fun _ _ amount_in _ => amount_in
  get_fee := fun _ => 30
  get_volumes := fun _ => []
  swap := fun s _ amount_in _ _ _ => (s, amount_in)
  share_total_balance := fun _ => 0
  share_balance_of := fun _ _ => 0
  share_transfer := fun s _ _ _ => s
  share_register := fun s _ => s

/-- Concrete rate oracle whose deserializer accepts exactly the response
`[1]` (committing the single rate `("token-a", 5)`) and treats every other
response as malformed. -/
def demoRates : Rates where
  stored := [("token-a", 1)]
  parse := fun cross_call_result =>
    if cross_call_result = [1] then some [("token-a", 5)] else none
  update := PromiseOrValue.Promise

/-- Concrete rated strategy instance over a trivial state carrying
`demoRates`, used to exhibit explicit evaluations of the rate-refresh
callback. -/
def demoRated : RatedSwapPool Unit where
  state := ()
  rates := demoRates
  tokens := fun _ => ["token-a", "token-b"]
  add_liquidity := fun s _ _ _ _ _ => (s, 0)
  remove_liquidity_by_shares := fun s _ _ _ min_amounts => (s, min_amounts)
  remove_liquidity_by_tokens := fun s _ _ _ _ _ => (s, 0)
  get_return := fun _ _ _ amount_in _ _ => amount_in
  get_fee := fun _ => 30
  get_volumes := fun _ => []
  get_share_price := fun _ _ => 0
  swap := fun s _ _ amount_in _ _ _ => (s, amount_in)
  share_total_balance := fun _ => 0
  share_balance_of := fun _ _ => 0
  share_transfer := fun s _ _ _ => s
  share_register := fun s _ => s
  predict_remove_liquidity := fun _ _ _ => []
  predict_remove_liquidity_by_tokens := fun _ _ _ _ => 0
  predict_add_rated_liquidity := fun _ _ _ _ _ => 0
  predict_remove_rated_liquidity_by_tokens := fun _ _ _ _ _ => 0
  get_rated_return := fun _ _ _ amount_in _ _ _ => amount_in

/-- Claim C2: every dispatcher operation preserves the active variant tag
(`kind` of the resulting pool equals `kind` of the original, for every
operation that yields a pool), `kind` is total on all three variants, and it
returns a distinct fixed string tag per variant, drawn from the fixed
enumeration SIMPLE_POOL / STABLE_SWAP / RATED_SWAP. -/
theorem pool_kind_invariant (σ₁ σ₂ σ₃ : Type) :
    (∀ sp : SimplePool σ₁, (Pool.SimplePool sp : Pool σ₁ σ₂ σ₃).kind = "SIMPLE_POOL")
    ∧ (∀ stp : StableSwapPool σ₂, (Pool.StableSwapPool stp : Pool σ₁ σ₂ σ₃).kind = "STABLE_SWAP")
    ∧ (∀ rp : RatedSwapPool σ₃, (Pool.RatedSwapPool rp : Pool σ₁ σ₂ σ₃).kind = "RATED_SWAP")
    ∧ ("SIMPLE_POOL" ≠ "STABLE_SWAP")
    ∧ ("STABLE_SWAP" ≠ "RATED_SWAP")
    ∧ ("SIMPLE_POOL" ≠ "RATED_SWAP")
    ∧ (∀ p : Pool σ₁ σ₂ σ₃,
        p.kind = "SIMPLE_POOL" ∨ p.kind = "STABLE_SWAP" ∨ p.kind = "RATED_SWAP")
    ∧ (∀ (p : Pool σ₁ σ₂ σ₃) s a,
        afterPool Pool.kind (p.add_liquidity s a) p.kind = p.kind)
    ∧ (∀ (p : Pool σ₁ σ₂ σ₃) s a m f,
        afterPool Pool.kind (p.add_stable_liquidity s a m f) p.kind = p.kind)
    ∧ (∀ (p : Pool σ₁ σ₂ σ₃) s sh ma, ((p.remove_liquidity s sh ma).1).kind = p.kind)
    ∧ (∀ (p : Pool σ₁ σ₂ σ₃) s a m f,
        afterPool Pool.kind (p.remove_liquidity_by_tokens s a m f) p.kind = p.kind)
    ∧ (∀ (p : Pool σ₁ σ₂ σ₃) tin ain tout f, ((p.get_return tin ain tout f).1).kind = p.kind)
    ∧ (∀ (p : Pool σ₁ σ₂ σ₃) tin ain tout mo f, ((p.swap tin ain tout mo f).1).kind = p.kind)
    ∧ (∀ (p : Pool σ₁ σ₂ σ₃) a b n, (p.share_transfer a b n).kind = p.kind)
    ∧ (∀ (p : Pool σ₁ σ₂ σ₃) a, (p.share_register a).kind = p.kind)
    ∧ (∀ (p : Pool σ₁ σ₂ σ₃) a f,
        afterPool Pool.kind (p.predict_add_stable_liquidity a f) p.kind = p.kind)
    ∧ (∀ (p : Pool σ₁ σ₂ σ₃) sh,
        afterPool Pool.kind (p.predict_remove_liquidity sh) p.kind = p.kind)
    ∧ (∀ (p : Pool σ₁ σ₂ σ₃) a f,
        afterPool Pool.kind (p.predict_remove_liquidity_by_tokens a f) p.kind = p.kind)
    ∧ (∀ (p : Pool σ₁ σ₂ σ₃) a r f,
        afterPool Pool.kind (p.predict_add_rated_liquidity a r f) p.kind = p.kind)
    ∧ (∀ (p : Pool σ₁ σ₂ σ₃) a r f,
        afterPool Pool.kind (p.predict_remove_rated_liquidity_by_tokens a r f) p.kind = p.kind)
    ∧ (∀ (p : Pool σ₁ σ₂ σ₃) tin ain tout r f,
        afterPool Pool.kind (p.get_rated_return tin ain tout r f) p.kind = p.kind)
    ∧ (∀ p : Pool σ₁ σ₂ σ₃, afterPool Pool.kind p.update_rates p.kind = p.kind)
    ∧ (∀ (p : Pool σ₁ σ₂ σ₃) b,
        afterPool Pool.kind (p.update_callback b) p.kind = p.kind) := by
  repeat' apply And.intro
  all_goals first
    | decide
    | (intro p; intros;
       cases p <;> first
         | rfl
         | exact Or.inl rfl
         | exact Or.inr (Or.inl rfl)
         | exact Or.inr (Or.inr rfl))

/-- Claim C4: on every variant, the share-balance, share-transfer,
share-registration, total-share, fee, and volume operations delegate to the
underlying strategy; in the source none of their `match` arms is
`unimplemented!()`, which the embedding reflects by these operations being
total (never `none`), so they never fail due to a variant-kind mismatch. -/
theorem shares_fee_volume_uniform (σ₁ σ₂ σ₃ : Type) :
    (∀ (sp : SimplePool σ₁) a,
      (Pool.SimplePool sp : Pool σ₁ σ₂ σ₃).share_balances a = sp.share_balance_of sp.state a)
    ∧ (∀ (stp : StableSwapPool σ₂) a,
      (Pool.StableSwapPool stp : Pool σ₁ σ₂ σ₃).share_balances a = stp.share_balance_of stp.state a)
    ∧ (∀ (rp : RatedSwapPool σ₃) a,
      (Pool.RatedSwapPool rp : Pool σ₁ σ₂ σ₃).share_balances a = rp.share_balance_of rp.state a)
    ∧ (∀ (sp : SimplePool σ₁) a b n,
      (Pool.SimplePool sp : Pool σ₁ σ₂ σ₃).share_transfer a b n
        = Pool.SimplePool { sp with state := sp.share_transfer sp.state a b n })
    ∧ (∀ (stp : StableSwapPool σ₂) a b n,
      (Pool.StableSwapPool stp : Pool σ₁ σ₂ σ₃).share_transfer a b n
        = Pool.StableSwapPool { stp with state := stp.share_transfer stp.state a b n })
    ∧ (∀ (rp : RatedSwapPool σ₃) a b n,
      (Pool.RatedSwapPool rp : Pool σ₁ σ₂ σ₃).share_transfer a b n
        = Pool.RatedSwapPool { rp with state := rp.share_transfer rp.state a b n })
    ∧ (∀ (sp : SimplePool σ₁) a,
      (Pool.SimplePool sp : Pool σ₁ σ₂ σ₃).share_register a
        = Pool.SimplePool { sp with state := sp.share_register sp.state a })
    ∧ (∀ (stp : StableSwapPool σ₂) a,
      (Pool.StableSwapPool stp : Pool σ₁ σ₂ σ₃).share_register a
        = Pool.StableSwapPool { stp with state := stp.share_register stp.state a })
    ∧ (∀ (rp : RatedSwapPool σ₃) a,
      (Pool.RatedSwapPool rp : Pool σ₁ σ₂ σ₃).share_register a
        = Pool.RatedSwapPool { rp with state := rp.share_register rp.state a })
    ∧ (∀ sp : SimplePool σ₁,
      (Pool.SimplePool sp : Pool σ₁ σ₂ σ₃).share_total_balance = sp.share_total_balance sp.state)
    ∧ (∀ stp : StableSwapPool σ₂,
      (Pool.StableSwapPool stp : Pool σ₁ σ₂ σ₃).share_total_balance = stp.share_total_balance stp.state)
    ∧ (∀ rp : RatedSwapPool σ₃,
      (Pool.RatedSwapPool rp : Pool σ₁ σ₂ σ₃).share_total_balance = rp.share_total_balance rp.state)
    ∧ (∀ sp : SimplePool σ₁,
      (Pool.SimplePool sp : Pool σ₁ σ₂ σ₃).get_fee = sp.get_fee sp.state)
    ∧ (∀ stp : StableSwapPool σ₂,
      (Pool.StableSwapPool stp : Pool σ₁ σ₂ σ₃).get_fee = stp.get_fee stp.state)
    ∧ (∀ rp : RatedSwapPool σ₃,
      (Pool.RatedSwapPool rp : Pool σ₁ σ₂ σ₃).get_fee = rp.get_fee rp.state)
    ∧ (∀ sp : SimplePool σ₁,
      (Pool.SimplePool sp : Pool σ₁ σ₂ σ₃).get_volumes = sp.get_volumes sp.state)
    ∧ (∀ stp : StableSwapPool σ₂,
      (Pool.StableSwapPool stp : Pool σ₁ σ₂ σ₃).get_volumes = stp.get_volumes stp.state)
    ∧ (∀ rp : RatedSwapPool σ₃,
      (Pool.RatedSwapPool rp : Pool σ₁ σ₂ σ₃).get_volumes = rp.get_volumes rp.state) := by
  repeat' apply And.intro
  all_goals intros
  all_goals rfl

/-- Claim C5: on a rated pool, issuing a rate-refresh request leaves the
pool's persisted state, including the committed rate mapping, entirely
unchanged: `update_rates` takes `&self` in the source and delegates to
`rates.update`, returning the identical pool. -/
theorem update_rates_frame (σ₁ σ₂ σ₃ : Type) :
    (∀ rp : RatedSwapPool σ₃,
      (Pool.RatedSwapPool rp : Pool σ₁ σ₂ σ₃).update_rates
        = some (Pool.RatedSwapPool rp, rp.rates.update))
    ∧ (∀ rp : RatedSwapPool σ₃,
      Option.map Prod.fst (Pool.update_rates (Pool.RatedSwapPool rp : Pool σ₁ σ₂ σ₃))
        = some (Pool.RatedSwapPool rp))
    ∧ (∀ rp : RatedSwapPool σ₃,
      Option.map (fun pr => pr.1.kind) (Pool.update_rates (Pool.RatedSwapPool rp : Pool σ₁ σ₂ σ₃))
        = some "RATED_SWAP") :=
  ⟨fun _ => rfl, fun _ => rfl, fun _ => rfl⟩

/-- Claim C6: the swap quote `get_return` is supported on all three kinds,
delegating to the active strategy quote, and is read-only: the pool after the
call (a `&self` borrow in the source) is exactly the pool before it. -/
theorem get_return_supported_readonly (σ₁ σ₂ σ₃ : Type) :
    (∀ (p : Pool σ₁ σ₂ σ₃) tin ain tout f, (p.get_return tin ain tout f).1 = p)
    ∧ (∀ (sp : SimplePool σ₁) tin ain tout f,
      (Pool.SimplePool sp : Pool σ₁ σ₂ σ₃).get_return tin ain tout f
        = (Pool.SimplePool sp, sp.get_return sp.state tin ain tout))
    ∧ (∀ (stp : StableSwapPool σ₂) tin ain tout f,
      (Pool.StableSwapPool stp : Pool σ₁ σ₂ σ₃).get_return tin ain tout f
        = (Pool.StableSwapPool stp, stp.get_return stp.state tin ain tout f))
    ∧ (∀ (rp : RatedSwapPool σ₃) tin ain tout f,
      (Pool.RatedSwapPool rp : Pool σ₁ σ₂ σ₃).get_return tin ain tout f
        = (Pool.RatedSwapPool rp, rp.get_return rp.state rp.rates tin ain tout f)) := by
  refine ⟨fun p tin ain tout f => ?_, fun _ _ _ _ _ => rfl, fun _ _ _ _ _ => rfl,
    fun _ _ _ _ _ => rfl⟩
  cases p <;> rfl

/-- Claim C8: the share-decimal precision is a fixed per-kind constant:
`get_share_decimal` is total and deterministic, returns 18 on the stableswap
kind and 24 on the constant-product and rated kinds, and its value is
unaffected by every other dispatcher operation (each operation preserves the
variant, hence the decimal). -/
theorem share_decimal_per_kind (σ₁ σ₂ σ₃ : Type) :
    (∀ sp : SimplePool σ₁, (Pool.SimplePool sp : Pool σ₁ σ₂ σ₃).get_share_decimal = 24)
    ∧ (∀ stp : StableSwapPool σ₂, (Pool.StableSwapPool stp : Pool σ₁ σ₂ σ₃).get_share_decimal = 18)
    ∧ (∀ rp : RatedSwapPool σ₃, (Pool.RatedSwapPool rp : Pool σ₁ σ₂ σ₃).get_share_decimal = 24)
    ∧ (∀ (p : Pool σ₁ σ₂ σ₃) s a,
        afterPool Pool.get_share_decimal (p.add_liquidity s a) p.get_share_decimal
          = p.get_share_decimal)
    ∧ (∀ (p : Pool σ₁ σ₂ σ₃) s a m f,
        afterPool Pool.get_share_decimal (p.add_stable_liquidity s a m f) p.get_share_decimal
          = p.get_share_decimal)
    ∧ (∀ (p : Pool σ₁ σ₂ σ₃) s sh ma,
        ((p.remove_liquidity s sh ma).1).get_share_decimal = p.get_share_decimal)
    ∧ (∀ (p : Pool σ₁ σ₂ σ₃) s a m f,
        afterPool Pool.get_share_decimal (p.remove_liquidity_by_tokens s a m f) p.get_share_decimal
          = p.get_share_decimal)
    ∧ (∀ (p : Pool σ₁ σ₂ σ₃) tin ain tout f,
        ((p.get_return tin ain tout f).1).get_share_decimal = p.get_share_decimal)
    ∧ (∀ (p : Pool σ₁ σ₂ σ₃) tin ain tout mo f,
        ((p.swap tin ain tout mo f).1).get_share_decimal = p.get_share_decimal)
    ∧ (∀ (p : Pool σ₁ σ₂ σ₃) a b n,
        (p.share_transfer a b n).get_share_decimal = p.get_share_decimal)
    ∧ (∀ (p : Pool σ₁ σ₂ σ₃) a,
        (p.share_register a).get_share_decimal = p.get_share_decimal)
    ∧ (∀ (p : Pool σ₁ σ₂ σ₃) a f,
        afterPool Pool.get_share_decimal (p.predict_add_stable_liquidity a f) p.get_share_decimal
          = p.get_share_decimal)
    ∧ (∀ (p : Pool σ₁ σ₂ σ₃) sh,
        afterPool Pool.get_share_decimal (p.predict_remove_liquidity sh) p.get_share_decimal
          = p.get_share_decimal)
    ∧ (∀ (p : Pool σ₁ σ₂ σ₃) a f,
        afterPool Pool.get_share_decimal (p.predict_remove_liquidity_by_tokens a f) p.get_share_decimal
          = p.get_share_decimal)
    ∧ (∀ (p : Pool σ₁ σ₂ σ₃) a r f,
        afterPool Pool.get_share_decimal (p.predict_add_rated_liquidity a r f) p.get_share_decimal
          = p.get_share_decimal)
    ∧ (∀ (p : Pool σ₁ σ₂ σ₃) a r f,
        afterPool Pool.get_share_decimal (p.predict_remove_rated_liquidity_by_tokens a r f) p.get_share_decimal
          = p.get_share_decimal)
    ∧ (∀ (p : Pool σ₁ σ₂ σ₃) tin ain tout r f,
        afterPool Pool.get_share_decimal (p.get_rated_return tin ain tout r f) p.get_share_decimal
          = p.get_share_decimal)
    ∧ (∀ p : Pool σ₁ σ₂ σ₃,
        afterPool Pool.get_share_decimal p.update_rates p.get_share_decimal = p.get_share_decimal)
    ∧ (∀ (p : Pool σ₁ σ₂ σ₃) b,
        afterPool Pool.get_share_decimal (p.update_callback b) p.get_share_decimal
          = p.get_share_decimal) := by
  repeat' apply And.intro
  all_goals first
    | (intros; rfl)
    | (intro p; intros; cases p <;> rfl)

/-- Claim C9: on a constant-product pool, `get_return` is independent of the
`AdminFees` argument: the `SimplePool` dispatch arm discards `fees`, so two
quotes on the same pool with the same tokens and input amount but different
fee values coincide. -/
theorem simple_get_return_ignores_fees (σ₁ σ₂ σ₃ : Type) :
    ∀ (sp : SimplePool σ₁) tin ain tout (f g : AdminFees),
      (Pool.SimplePool sp : Pool σ₁ σ₂ σ₃).get_return tin ain tout f
        = (Pool.SimplePool sp : Pool σ₁ σ₂ σ₃).get_return tin ain tout g :=
  fun _ _ _ _ _ _ => rfl

/-- Claim C7: every prediction operation is a contract violation on the
constant-product kind (and `predict_add_stable_liquidity` also on the rated
kind), and on every kind on which a prediction is supported it computes its
result without mutating any pool state: the pool component of the result is
the input pool. -/
theorem predictions_readonly_and_unsupported_on_simple (σ₁ σ₂ σ₃ : Type) :
    (∀ (sp : SimplePool σ₁) a f,
      (Pool.SimplePool sp : Pool σ₁ σ₂ σ₃).predict_add_stable_liquidity a f = none)
    ∧ (∀ (sp : SimplePool σ₁) sh,
      (Pool.SimplePool sp : Pool σ₁ σ₂ σ₃).predict_remove_liquidity sh = none)
    ∧ (∀ (sp : SimplePool σ₁) a f,
      (Pool.SimplePool sp : Pool σ₁ σ₂ σ₃).predict_remove_liquidity_by_tokens a f = none)
    ∧ (∀ (sp : SimplePool σ₁) a r f,
      (Pool.SimplePool sp : Pool σ₁ σ₂ σ₃).predict_add_rated_liquidity a r f = none)
    ∧ (∀ (sp : SimplePool σ₁) a r f,
      (Pool.SimplePool sp : Pool σ₁ σ₂ σ₃).predict_remove_rated_liquidity_by_tokens a r f = none)
    ∧ (∀ (rp : RatedSwapPool σ₃) a f,
      (Pool.RatedSwapPool rp : Pool σ₁ σ₂ σ₃).predict_add_stable_liquidity a f = none)
    ∧ (∀ (p : Pool σ₁ σ₂ σ₃) a f,
      afterPool (fun q => q) (p.predict_add_stable_liquidity a f) p = p)
    ∧ (∀ (p : Pool σ₁ σ₂ σ₃) sh,
      afterPool (fun q => q) (p.predict_remove_liquidity sh) p = p)
    ∧ (∀ (p : Pool σ₁ σ₂ σ₃) a f,
      afterPool (fun q => q) (p.predict_remove_liquidity_by_tokens a f) p = p)
    ∧ (∀ (p : Pool σ₁ σ₂ σ₃) a r f,
      afterPool (fun q => q) (p.predict_add_rated_liquidity a r f) p = p)
    ∧ (∀ (p : Pool σ₁ σ₂ σ₃) a r f,
      afterPool (fun q => q) (p.predict_remove_rated_liquidity_by_tokens a r f) p = p) := by
  repeat' apply And.intro
  all_goals first
    | (intros; rfl)
    | (intro p; intros; cases p <;> rfl)

/-- Claim C3: on a rated pool, the rate-refresh completion callback with a
malformed or error response leaves the previously committed rates untouched
and returns `false`; with a well-formed successful response it atomically
replaces the oracle's rate mapping and returns `true`; on the other two kinds
calling it is a contract violation.  The callback semantics is modelled from
the spec, `rated_swap/rates.rs` not being part of the dispatch layer. -/
theorem rated_update_callback_defensive (σ₁ σ₂ σ₃ : Type) :
    (∀ (r : Rates) b, r.parse b = none → r.update_callback b = (r, false))
    ∧ (∀ (r : Rates) b m, r.parse b = some m →
        r.update_callback b = ({ r with stored := m }, true))
    ∧ (∀ (sp : SimplePool σ₁) b,
        (Pool.SimplePool sp : Pool σ₁ σ₂ σ₃).update_callback b = none)
    ∧ (∀ (stp : StableSwapPool σ₂) b,
        (Pool.StableSwapPool stp : Pool σ₁ σ₂ σ₃).update_callback b = none)
    ∧ (∀ (rp : RatedSwapPool σ₃) b,
        (Pool.RatedSwapPool rp : Pool σ₁ σ₂ σ₃).update_callback b
          = some (Pool.RatedSwapPool { rp with rates := (rp.rates.update_callback b).1 },
                  (rp.rates.update_callback b).2)) := by
  refine ⟨fun r b h => ?_, fun r b m h => ?_, fun _ _ => rfl, fun _ _ => rfl, fun _ _ => rfl⟩
  · simp [Rates.update_callback, h]
  · simp [Rates.update_callback, h]

/-- Witness for `rated_update_callback_defensive` at the concrete oracle
`demoRates`: the response `[2]` is malformed and leaves the committed rates
untouched, the response `[1]` parses and replaces them, and the rated
dispatcher arm propagates the failure case unchanged. -/
theorem rated_update_callback_defensive_witness :
    Rates.update_callback demoRates [2] = (demoRates, false)
    ∧ Rates.update_callback demoRates [1] = ({ demoRates with stored := [("token-a", 5)] }, true)
    ∧ (Pool.RatedSwapPool demoRated : Pool Unit Unit Unit).update_callback [2]
        = some (Pool.RatedSwapPool demoRated, false) :=
  ⟨(rated_update_callback_defensive Unit Unit Unit).1 demoRates [2] rfl,
   (rated_update_callback_defensive Unit Unit Unit).2.1 demoRates [1] [("token-a", 5)] rfl,
   (rated_update_callback_defensive Unit Unit Unit).2.2.2.2 demoRated [2]⟩

/-- Claim C10: on a constant-product pool, `add_liquidity` passes the
caller's amounts vector by mutable reference and rewrites it to the amounts
actually kept by the pool (the list component of the embedded result is the
caller's vector after the call, namely the strategy's kept amounts), and the
kept amounts need not equal the amounts originally passed in, as the concrete
instance `demoSimple` shows. -/
theorem simple_add_liquidity_rewrites_amounts (σ₁ σ₂ σ₃ : Type) :
    (∀ (sp : SimplePool σ₁) sender_id amounts,
      (Pool.SimplePool sp : Pool σ₁ σ₂ σ₃).add_liquidity sender_id amounts
        = some (Pool.SimplePool
                  { sp with state := (sp.add_liquidity sp.state sender_id amounts).1 },
                (sp.add_liquidity sp.state sender_id amounts).2.1,
                (sp.add_liquidity sp.state sender_id amounts).2.2))
    ∧ ((Pool.SimplePool demoSimple : Pool Unit Unit Unit).add_liquidity "alice" [10]
        = some (Pool.SimplePool demoSimple, [11], 1))
    ∧ ([11] : List Balance) ≠ [10] :=
  ⟨fun _ _ _ => rfl, rfl, by decide⟩

/-- Claim C1: the full §4.1 support matrix of the dispatcher.  For every
operation and every active variant, a pair marked ✗ (an `unimplemented!()`
arm in the source) aborts fatally, embedded as `none`, never silently
producing a value; a pair marked ✓ delegates to the active strategy, the
delegation being given explicitly for each supported arm. -/
theorem pool_support_matrix (σ₁ σ₂ σ₃ : Type) :
    (∀ sp : SimplePool σ₁,
      (Pool.SimplePool sp : Pool σ₁ σ₂ σ₃).tokens = sp.tokens sp.state)
    ∧ (∀ stp : StableSwapPool σ₂,
      (Pool.StableSwapPool stp : Pool σ₁ σ₂ σ₃).tokens = stp.tokens stp.state)
    ∧ (∀ rp : RatedSwapPool σ₃,
      (Pool.RatedSwapPool rp : Pool σ₁ σ₂ σ₃).tokens = rp.tokens rp.state)
    ∧ (∀ (sp : SimplePool σ₁) s a,
      (Pool.SimplePool sp : Pool σ₁ σ₂ σ₃).add_liquidity s a
        = some (Pool.SimplePool { sp with state := (sp.add_liquidity sp.state s a).1 },
                (sp.add_liquidity sp.state s a).2.1, (sp.add_liquidity sp.state s a).2.2))
    ∧ (∀ (stp : StableSwapPool σ₂) s a,
      (Pool.StableSwapPool stp : Pool σ₁ σ₂ σ₃).add_liquidity s a = none)
    ∧ (∀ (rp : RatedSwapPool σ₃) s a,
      (Pool.RatedSwapPool rp : Pool σ₁ σ₂ σ₃).add_liquidity s a = none)
    ∧ (∀ (sp : SimplePool σ₁) s a m f,
      (Pool.SimplePool sp : Pool σ₁ σ₂ σ₃).add_stable_liquidity s a m f = none)
    ∧ (∀ (stp : StableSwapPool σ₂) s a m f,
      (Pool.StableSwapPool stp : Pool σ₁ σ₂ σ₃).add_stable_liquidity s a m f
        = some (Pool.StableSwapPool { stp with state := (stp.add_liquidity stp.state s a m f).1 },
                (stp.add_liquidity stp.state s a m f).2))
    ∧ (∀ (rp : RatedSwapPool σ₃) s a m f,
      (Pool.RatedSwapPool rp : Pool σ₁ σ₂ σ₃).add_stable_liquidity s a m f
        = some (Pool.RatedSwapPool { rp with state := (rp.add_liquidity rp.state rp.rates s a m f).1 },
                (rp.add_liquidity rp.state rp.rates s a m f).2))
    ∧ (∀ (sp : SimplePool σ₁) s sh ma,
      (Pool.SimplePool sp : Pool σ₁ σ₂ σ₃).remove_liquidity s sh ma
        = (Pool.SimplePool { sp with state := (sp.remove_liquidity sp.state s sh ma).1 },
           (sp.remove_liquidity sp.state s sh ma).2))
    ∧ (∀ (stp : StableSwapPool σ₂) s sh ma,
      (Pool.StableSwapPool stp : Pool σ₁ σ₂ σ₃).remove_liquidity s sh ma
        = (Pool.StableSwapPool { stp with state := (stp.remove_liquidity_by_shares stp.state s sh ma).1 },
           (stp.remove_liquidity_by_shares stp.state s sh ma).2))
    ∧ (∀ (rp : RatedSwapPool σ₃) s sh ma,
      (Pool.RatedSwapPool rp : Pool σ₁ σ₂ σ₃).remove_liquidity s sh ma
        = (Pool.RatedSwapPool { rp with state := (rp.remove_liquidity_by_shares rp.state rp.rates s sh ma).1 },
           (rp.remove_liquidity_by_shares rp.state rp.rates s sh ma).2))
    ∧ (∀ (sp : SimplePool σ₁) s a m f,
      (Pool.SimplePool sp : Pool σ₁ σ₂ σ₃).remove_liquidity_by_tokens s a m f = none)
    ∧ (∀ (stp : StableSwapPool σ₂) s a m f,
      (Pool.StableSwapPool stp : Pool σ₁ σ₂ σ₃).remove_liquidity_by_tokens s a m f
        = some (Pool.StableSwapPool
                  { stp with state := (stp.remove_liquidity_by_tokens stp.state s a m f).1 },
                (stp.remove_liquidity_by_tokens stp.state s a m f).2))
    ∧ (∀ (rp : RatedSwapPool σ₃) s a m f,
      (Pool.RatedSwapPool rp : Pool σ₁ σ₂ σ₃).remove_liquidity_by_tokens s a m f
        = some (Pool.RatedSwapPool
                  { rp with state := (rp.remove_liquidity_by_tokens rp.state rp.rates s a m f).1 },
                (rp.remove_liquidity_by_tokens rp.state rp.rates s a m f).2))
    ∧ (∀ (sp : SimplePool σ₁) tin ain tout f,
      (Pool.SimplePool sp : Pool σ₁ σ₂ σ₃).get_return tin ain tout f
        = (Pool.SimplePool sp, sp.get_return sp.state tin ain tout))
    ∧ (∀ (stp : StableSwapPool σ₂) tin ain tout f,
      (Pool.StableSwapPool stp : Pool σ₁ σ₂ σ₃).get_return tin ain tout f
        = (Pool.StableSwapPool stp, stp.get_return stp.state tin ain tout f))
    ∧ (∀ (rp : RatedSwapPool σ₃) tin ain tout f,
      (Pool.RatedSwapPool rp : Pool σ₁ σ₂ σ₃).get_return tin ain tout f
        = (Pool.RatedSwapPool rp, rp.get_return rp.state rp.rates tin ain tout f))
    ∧ (∀ sp : SimplePool σ₁,
      (Pool.SimplePool sp : Pool σ₁ σ₂ σ₃).get_share_price = none)
    ∧ (∀ stp : StableSwapPool σ₂,
      (Pool.StableSwapPool stp : Pool σ₁ σ₂ σ₃).get_share_price
        = some (stp.get_share_price stp.state))
    ∧ (∀ rp : RatedSwapPool σ₃,
      (Pool.RatedSwapPool rp : Pool σ₁ σ₂ σ₃).get_share_price
        = some (rp.get_share_price rp.state rp.rates))
    ∧ (∀ (sp : SimplePool σ₁) tin ain tout mo f,
      (Pool.SimplePool sp : Pool σ₁ σ₂ σ₃).swap tin ain tout mo f
        = (Pool.SimplePool { sp with state := (sp.swap sp.state tin ain tout mo f).1 },
           (sp.swap sp.state tin ain tout mo f).2))
    ∧ (∀ (stp : StableSwapPool σ₂) tin ain tout mo f,
      (Pool.StableSwapPool stp : Pool σ₁ σ₂ σ₃).swap tin ain tout mo f
        = (Pool.StableSwapPool { stp with state := (stp.swap stp.state tin ain tout mo f).1 },
           (stp.swap stp.state tin ain tout mo f).2))
    ∧ (∀ (rp : RatedSwapPool σ₃) tin ain tout mo f,
      (Pool.RatedSwapPool rp : Pool σ₁ σ₂ σ₃).swap tin ain tout mo f
        = (Pool.RatedSwapPool { rp with state := (rp.swap rp.state rp.rates tin ain tout mo f).1 },
           (rp.swap rp.state rp.rates tin ain tout mo f).2))
    ∧ (∀ sp : SimplePool σ₁,
      (Pool.SimplePool sp : Pool σ₁ σ₂ σ₃).share_total_balance = sp.share_total_balance sp.state)
    ∧ (∀ stp : StableSwapPool σ₂,
      (Pool.StableSwapPool stp : Pool σ₁ σ₂ σ₃).share_total_balance = stp.share_total_balance stp.state)
    ∧ (∀ rp : RatedSwapPool σ₃,
      (Pool.RatedSwapPool rp : Pool σ₁ σ₂ σ₃).share_total_balance = rp.share_total_balance rp.state)
    ∧ (∀ (sp : SimplePool σ₁) acc,
      (Pool.SimplePool sp : Pool σ₁ σ₂ σ₃).share_balances acc = sp.share_balance_of sp.state acc)
    ∧ (∀ (stp : StableSwapPool σ₂) acc,
      (Pool.StableSwapPool stp : Pool σ₁ σ₂ σ₃).share_balances acc = stp.share_balance_of stp.state acc)
    ∧ (∀ (rp : RatedSwapPool σ₃) acc,
      (Pool.RatedSwapPool rp : Pool σ₁ σ₂ σ₃).share_balances acc = rp.share_balance_of rp.state acc)
    ∧ (∀ (sp : SimplePool σ₁) s rcv n,
      (Pool.SimplePool sp : Pool σ₁ σ₂ σ₃).share_transfer s rcv n
        = Pool.SimplePool { sp with state := sp.share_transfer sp.state s rcv n })
    ∧ (∀ (stp : StableSwapPool σ₂) s rcv n,
      (Pool.StableSwapPool stp : Pool σ₁ σ₂ σ₃).share_transfer s rcv n
        = Pool.StableSwapPool { stp with state := stp.share_transfer stp.state s rcv n })
    ∧ (∀ (rp : RatedSwapPool σ₃) s rcv n,
      (Pool.RatedSwapPool rp : Pool σ₁ σ₂ σ₃).share_transfer s rcv n
        = Pool.RatedSwapPool { rp with state := rp.share_transfer rp.state s rcv n })
    ∧ (∀ (sp : SimplePool σ₁) acc,
      (Pool.SimplePool sp : Pool σ₁ σ₂ σ₃).share_register acc
        = Pool.SimplePool { sp with state := sp.share_register sp.state acc })
    ∧ (∀ (stp : StableSwapPool σ₂) acc,
      (Pool.StableSwapPool stp : Pool σ₁ σ₂ σ₃).share_register acc
        = Pool.StableSwapPool { stp with state := stp.share_register stp.state acc })
    ∧ (∀ (rp : RatedSwapPool σ₃) acc,
      (Pool.RatedSwapPool rp : Pool σ₁ σ₂ σ₃).share_register acc
        = Pool.RatedSwapPool { rp with state := rp.share_register rp.state acc })
    ∧ (∀ sp : SimplePool σ₁,
      (Pool.SimplePool sp : Pool σ₁ σ₂ σ₃).get_fee = sp.get_fee sp.state)
    ∧ (∀ stp : StableSwapPool σ₂,
      (Pool.StableSwapPool stp : Pool σ₁ σ₂ σ₃).get_fee = stp.get_fee stp.state)
    ∧ (∀ rp : RatedSwapPool σ₃,
      (Pool.RatedSwapPool rp : Pool σ₁ σ₂ σ₃).get_fee = rp.get_fee rp.state)
    ∧ (∀ sp : SimplePool σ₁,
      (Pool.SimplePool sp : Pool σ₁ σ₂ σ₃).get_volumes = sp.get_volumes sp.state)
    ∧ (∀ stp : StableSwapPool σ₂,
      (Pool.StableSwapPool stp : Pool σ₁ σ₂ σ₃).get_volumes = stp.get_volumes stp.state)
    ∧ (∀ rp : RatedSwapPool σ₃,
      (Pool.RatedSwapPool rp : Pool σ₁ σ₂ σ₃).get_volumes = rp.get_volumes rp.state)
    ∧ (∀ (sp : SimplePool σ₁) a f,
      (Pool.SimplePool sp : Pool σ₁ σ₂ σ₃).predict_add_stable_liquidity a f = none)
    ∧ (∀ (stp : StableSwapPool σ₂) a f,
      (Pool.StableSwapPool stp : Pool σ₁ σ₂ σ₃).predict_add_stable_liquidity a f
        = some (Pool.StableSwapPool stp, stp.predict_add_stable_liquidity stp.state a f))
    ∧ (∀ (rp : RatedSwapPool σ₃) a f,
      (Pool.RatedSwapPool rp : Pool σ₁ σ₂ σ₃).predict_add_stable_liquidity a f = none)
    ∧ (∀ (sp : SimplePool σ₁) sh,
      (Pool.SimplePool sp : Pool σ₁ σ₂ σ₃).predict_remove_liquidity sh = none)
    ∧ (∀ (stp : StableSwapPool σ₂) sh,
      (Pool.StableSwapPool stp : Pool σ₁ σ₂ σ₃).predict_remove_liquidity sh
        = some (Pool.StableSwapPool stp, stp.predict_remove_liquidity stp.state sh))
    ∧ (∀ (rp : RatedSwapPool σ₃) sh,
      (Pool.RatedSwapPool rp : Pool σ₁ σ₂ σ₃).predict_remove_liquidity sh
        = some (Pool.RatedSwapPool rp, rp.predict_remove_liquidity rp.state rp.rates sh))
    ∧ (∀ (sp : SimplePool σ₁) a f,
      (Pool.SimplePool sp : Pool σ₁ σ₂ σ₃).predict_remove_liquidity_by_tokens a f = none)
    ∧ (∀ (stp : StableSwapPool σ₂) a f,
      (Pool.StableSwapPool stp : Pool σ₁ σ₂ σ₃).predict_remove_liquidity_by_tokens a f
        = some (Pool.StableSwapPool stp, stp.predict_remove_liquidity_by_tokens stp.state a f))
    ∧ (∀ (rp : RatedSwapPool σ₃) a f,
      (Pool.RatedSwapPool rp : Pool σ₁ σ₂ σ₃).predict_remove_liquidity_by_tokens a f
        = some (Pool.RatedSwapPool rp, rp.predict_remove_liquidity_by_tokens rp.state rp.rates a f))
    ∧ (∀ (sp : SimplePool σ₁) a r f,
      (Pool.SimplePool sp : Pool σ₁ σ₂ σ₃).predict_add_rated_liquidity a r f = none)
    ∧ (∀ (stp : StableSwapPool σ₂) a r f,
      (Pool.StableSwapPool stp : Pool σ₁ σ₂ σ₃).predict_add_rated_liquidity a r f = none)
    ∧ (∀ (rp : RatedSwapPool σ₃) a r f,
      (Pool.RatedSwapPool rp : Pool σ₁ σ₂ σ₃).predict_add_rated_liquidity a r f
        = some (Pool.RatedSwapPool rp, rp.predict_add_rated_liquidity rp.state rp.rates a r f))
    ∧ (∀ (sp : SimplePool σ₁) a r f,
      (Pool.SimplePool sp : Pool σ₁ σ₂ σ₃).predict_remove_rated_liquidity_by_tokens a r f = none)
    ∧ (∀ (stp : StableSwapPool σ₂) a r f,
      (Pool.StableSwapPool stp : Pool σ₁ σ₂ σ₃).predict_remove_rated_liquidity_by_tokens a r f = none)
    ∧ (∀ (rp : RatedSwapPool σ₃) a r f,
      (Pool.RatedSwapPool rp : Pool σ₁ σ₂ σ₃).predict_remove_rated_liquidity_by_tokens a r f
        = some (Pool.RatedSwapPool rp,
                rp.predict_remove_rated_liquidity_by_tokens rp.state rp.rates a r f))
    ∧ (∀ (sp : SimplePool σ₁) tin ain tout r f,
      (Pool.SimplePool sp : Pool σ₁ σ₂ σ₃).get_rated_return tin ain tout r f = none)
    ∧ (∀ (stp : StableSwapPool σ₂) tin ain tout r f,
      (Pool.StableSwapPool stp : Pool σ₁ σ₂ σ₃).get_rated_return tin ain tout r f = none)
    ∧ (∀ (rp : RatedSwapPool σ₃) tin ain tout r f,
      (Pool.RatedSwapPool rp : Pool σ₁ σ₂ σ₃).get_rated_return tin ain tout r f
        = some (Pool.RatedSwapPool rp,
                rp.get_rated_return rp.state rp.rates tin ain tout r f))
    ∧ (∀ sp : SimplePool σ₁,
      (Pool.SimplePool sp : Pool σ₁ σ₂ σ₃).update_rates = none)
    ∧ (∀ stp : StableSwapPool σ₂,
      (Pool.StableSwapPool stp : Pool σ₁ σ₂ σ₃).update_rates = none)
    ∧ (∀ rp : RatedSwapPool σ₃,
      (Pool.RatedSwapPool rp : Pool σ₁ σ₂ σ₃).update_rates
        = some (Pool.RatedSwapPool rp, rp.rates.update))
    ∧ (∀ (sp : SimplePool σ₁) b,
      (Pool.SimplePool sp : Pool σ₁ σ₂ σ₃).update_callback b = none)
    ∧ (∀ (stp : StableSwapPool σ₂) b,
      (Pool.StableSwapPool stp : Pool σ₁ σ₂ σ₃).update_callback b = none)
    ∧ (∀ (rp : RatedSwapPool σ₃) b,
      (Pool.RatedSwapPool rp : Pool σ₁ σ₂ σ₃).update_callback b
        = some (Pool.RatedSwapPool { rp with rates := (rp.rates.update_callback b).1 },
                (rp.rates.update_callback b).2)) := by
  repeat' apply And.intro
  all_goals intros
  all_goals rfl
